import Mathlib

/-!
Shallow embedding of the `prox-cli` Proxmox API client
(`src/prox/libs/proxmox/pyproxmox.py`), covering the session establisher
(`prox_auth.__init__`), the request dispatcher (`pyproxmox.connect`) and the
endpoint wrappers the claims mention.  HTTP transport is modelled as an
oracle function from requests to responses; a response carries the outcome
of attempting to parse its body as JSON (`json = none` models a body that
is not valid JSON, i.e. `response.json()` raising).  Python exceptions
raised during authentication are modelled with an explicit error type.
-/

namespace ProxCli

/-- JSON values, as produced by `response.json()` in the source. -/
inductive JVal where
  | null
  | bool (b : Bool)
  | num (n : Int)
  | str (s : String)
  | arr (xs : List JVal)
  | obj (fields : List (String × JVal))
deriving Repr

/-- Python `repr` of a JSON value, used by `str` on non-string values
(containers render their elements with `repr`). -/
def pyRepr : JVal → String
  | .null => "None"
  | .bool true => "True"
  | .bool false => "False"
  | .num n => toString n
  | .str s => "\x27" ++ s ++ "\x27"
  | .arr xs => "[" ++ String.intercalate ", " (xs.attach.map (fun x => pyRepr x.1)) ++ "]"
  | .obj fs => "\x7b" ++ String.intercalate ", "
      (fs.attach.map (fun p => "\x27" ++ p.1.1 ++ "\x27: " ++ pyRepr p.1.2)) ++ "\x7d"
decreasing_by
  · have h := List.sizeOf_lt_of_mem x.2
    simp only [JVal.arr.sizeOf_spec]
    omega
  · have h := List.sizeOf_lt_of_mem p.2
    have h2 : sizeOf p.1.2 < sizeOf p.1 := by
      obtain ⟨a, b⟩ := p.1
      simp only [Prod.mk.sizeOf_spec]
      omega
    simp only [JVal.obj.sizeOf_spec]
    omega

/-- Python `str` applied to a JSON value: the identity on strings,
`repr`-style rendering otherwise.  The dispatcher applies this to the CSRF
token (`str(self.CSRF)`). -/
def pyStr : JVal → String
  | .str s => s
  | v => pyRepr v

/-- An HTTP request as issued through the `requests` library: the method,
the full URL, the optional form-encoded body (`data=`), the cookie dict
(`cookies=`) and the header dict (`headers=`); an absent keyword argument
is the empty list / `none`. -/
structure HttpRequest where
  method : String
  url : String
  data : Option (List (String × String))
  cookies : List (String × JVal)
  headers : List (String × String)
deriving Repr

/-- An HTTP response: status code, raw body, and the outcome of attempting
to parse the body as JSON (`none` models `response.json()` raising because
the body is not valid JSON). -/
structure HttpResponse where
  status : Nat
  body : String
  json : Option JVal
deriving Repr

/-- Python exceptions the client can raise. -/
inductive PyError where
  | keyError (k : String)
  | typeError
  | jsonDecodeError
  | transportError
  | attributeError
deriving Repr, DecidableEq

/-- Python dict indexing `v[k]` on a JSON value: a `KeyError` when the key
is absent, a `TypeError` when the value is not an object. -/
def dictGet : JVal → String → Except PyError JVal
  | .obj fs, k =>
    match fs.lookup k with
    | some v => .ok v
    | none => .error (.keyError k)
  | _, _ => .error .typeError

/-- The `prox_auth` instance after a successful `__init__`: every attribute
the constructor sets. -/
structure ProxAuth where
  url : String
  connect_data : List (String × String)
  full_url : String
  response : HttpResponse
  returned_data : JVal
  ticket : List (String × JVal)
  CSRF : JVal
deriving Repr

/-- Embedding of `prox_auth.__init__` (pyproxmox.py lines 37-47).  The
single `requests.post` is modelled by `post`, whose `.error` outcome models
a transport-level exception.  Returns the list of HTTP requests issued and
either the constructed instance or the Python exception that propagates. -/
def prox_auth_init (url username password : String)
    (post : HttpRequest → Except PyError HttpResponse) :
    List HttpRequest × Except PyError ProxAuth :=
  let connect_data : List (String × String) :=
    [("username", username), ("password", password)]
  let full_url := "https://" ++ url ++ ":8006/api2/json/access/ticket"
  let req : HttpRequest :=
    { method := "post", url := full_url, data := some connect_data,
      cookies := [], headers := [] }
  match post req with
  | .error e => ([req], .error e)
  | .ok resp =>
    match resp.json with
    | none => ([req], .error .jsonDecodeError)
    | some returned_data =>
      match dictGet returned_data "data" with
      | .error e => ([req], .error e)
      | .ok d =>
        match dictGet d "ticket" with
        | .error e => ([req], .error e)
        | .ok t =>
          match dictGet d "CSRFPreventionToken" with
          | .error e => ([req], .error e)
          | .ok c =>
            ([req], .ok { url := url, connect_data := connect_data,
                          full_url := full_url, response := resp,
                          returned_data := returned_data,
                          ticket := [("PVEAuthCookie", t)], CSRF := c })

/-- The `pyproxmox` instance state: the credentials copied from the auth
object at `__init__` plus the attributes `connect` assigns
(`full_url`, `response`, `returned_data`), absent (`none`) until first
assigned. -/
structure Pyproxmox where
  url : String
  ticket : List (String × JVal)
  CSRF : JVal
  full_url : Option String
  response : Option HttpResponse
  returned_data : Option JVal
deriving Repr

/-- Embedding of `pyproxmox.__init__` (lines 59-63). -/
def pyproxmox_init (a : ProxAuth) : Pyproxmox :=
  { url := a.url, ticket := a.ticket, CSRF := a.CSRF,
    full_url := none, response := none, returned_data := none }

/-- Embedding of `pyproxmox.connect` (lines 65-101).  `net` models the
`requests` transport.  Returns the list of HTTP requests issued (empty for
an unrecognised `conn_type`) together with the outcome for the caller:
`.ok (some j)` models `return self.returned_data` with parsed JSON `j`;
`.ok none` models Python `None`, returned after the bare `except:` catches
a JSON decode error and both prints succeed (`self.response` exists on
that path); `.error .attributeError` models the path where `self.response`
was never assigned — `self.response.json()` raises `AttributeError`, the
bare `except:` catches it, but `print(self.response)` at line 101
evaluates `self.response` again inside the handler and re-raises
`AttributeError`, which propagates uncaught.  The third component is the
updated instance state. -/
def connect (st : Pyproxmox) (net : HttpRequest → HttpResponse)
    (conn_type opt : String) (post_data : Option (List (String × String))) :
    List HttpRequest × Except PyError (Option JVal) × Pyproxmox :=
  let full_url := "https://" ++ st.url ++ ":8006/api2/json/" ++ opt
  let st1 := { st with full_url := some full_url }
  let httpheaders : List (String × String) :=
    [("Accept", "application/json"),
     ("Content-Type", "application/x-www-form-urlencoded")]
  let (reqs, st2) :=
    if conn_type == "post" then
      let hs := httpheaders ++ [("CSRFPreventionToken", pyStr st1.CSRF)]
      let req : HttpRequest :=
        { method := "post", url := full_url, data := post_data,
          cookies := st1.ticket, headers := hs }
      ([req], { st1 with response := some (net req) })
    else if conn_type == "put" then
      let hs := httpheaders ++ [("CSRFPreventionToken", pyStr st1.CSRF)]
      let req : HttpRequest :=
        { method := "put", url := full_url, data := post_data,
          cookies := st1.ticket, headers := hs }
      ([req], { st1 with response := some (net req) })
    else if conn_type == "delete" then
      let hs := httpheaders ++ [("CSRFPreventionToken", pyStr st1.CSRF)]
      let req : HttpRequest :=
        { method := "delete", url := full_url, data := post_data,
          cookies := st1.ticket, headers := hs }
      ([req], { st1 with response := some (net req) })
    else if conn_type == "get" then
      let req : HttpRequest :=
        { method := "get", url := full_url, data := none,
          cookies := st1.ticket, headers := [] }
      ([req], { st1 with response := some (net req) })
    else
      ([], st1)
  match st2.response with
  | none => (reqs, .error .attributeError, st2)
  | some r =>
    match r.json with
    | none => (reqs, .ok none, st2)
    | some j => (reqs, .ok (some j), { st2 with returned_data := some j })

/-- Embedding of `pyproxmox.getClusterStatus` (lines 109-112). -/
def getClusterStatus (st : Pyproxmox) (net : HttpRequest → HttpResponse) :
    List HttpRequest × Except PyError (Option JVal) × Pyproxmox :=
  connect st net "get" "cluster/status" none

/-- Embedding of `pyproxmox.migrateVirtualMachine` (lines 437-441); `node`,
`vmid` and `target` are taken already string-formatted (`%s` / `str`). -/
def migrateVirtualMachine (st : Pyproxmox) (net : HttpRequest → HttpResponse)
    (node vmid target : String) :
    List HttpRequest × Except PyError (Option JVal) × Pyproxmox :=
  connect st net "post" ("nodes/" ++ node ++ "/qemu/" ++ vmid ++ "/status/start")
    (some [("target", target)])

/-- Embedding of `pyproxmox.migrateOpenvzContainer` (lines 386-390). -/
def migrateOpenvzContainer (st : Pyproxmox) (net : HttpRequest → HttpResponse)
    (node vmid target : String) :
    List HttpRequest × Except PyError (Option JVal) × Pyproxmox :=
  connect st net "post" ("nodes/" ++ node ++ "/openvz/" ++ vmid ++ "/migrate")
    (some [("target", target)])

/-- A sequence of dispatcher calls through one instance: fold `connect`
over a list of (transport, verb, path, body) tuples, collecting every HTTP
request issued along the way. -/
def runCalls (st : Pyproxmox)
    (calls : List ((HttpRequest → HttpResponse) × String × String ×
                   Option (List (String × String)))) :
    List HttpRequest × Pyproxmox :=
  match calls with
  | [] => ([], st)
  | c :: rest =>
    let (reqs, _, st1) := connect st c.1 c.2.1 c.2.2.1 c.2.2.2
    let (reqs2, st2) := runCalls st1 rest
    (reqs ++ reqs2, st2)

/-! ### Characterisation lemmas for `connect`, one per recognised verb -/

/-- Unfolding lemma for `connect` with verb `"post"`: one POST request with
the base headers plus the CSRF header, cookie dict `st.ticket`, body
`post_data`; the caller receives exactly the JSON-parse outcome of the
response. -/
theorem connect_post_eq (st : Pyproxmox) (net : HttpRequest → HttpResponse)
    (path : String) (pd : Option (List (String × String))) :
    connect st net "post" path pd =
      (let req : HttpRequest :=
        { method := "post", url := "https://" ++ st.url ++ ":8006/api2/json/" ++ path,
          data := pd, cookies := st.ticket,
          headers := [("Accept", "application/json"),
                      ("Content-Type", "application/x-www-form-urlencoded"),
                      ("CSRFPreventionToken", pyStr st.CSRF)] };
       ([req], .ok (net req).json,
        { st with full_url := some ("https://" ++ st.url ++ ":8006/api2/json/" ++ path),
                  response := some (net req),
                  returned_data :=
                    match (net req).json with
                    | some j => some j
                    | none => st.returned_data })) := by
  cases hj : (net { method := "post",
                    url := "https://" ++ st.url ++ ":8006/api2/json/" ++ path,
                    data := pd, cookies := st.ticket,
                    headers := [("Accept", "application/json"),
                                ("Content-Type", "application/x-www-form-urlencoded"),
                                ("CSRFPreventionToken", pyStr st.CSRF)] }).json <;>
    simp [connect, hj]

/-- Unfolding lemma for `connect` with verb `"put"`: same request shape as
POST, with method `"put"`. -/
theorem connect_put_eq (st : Pyproxmox) (net : HttpRequest → HttpResponse)
    (path : String) (pd : Option (List (String × String))) :
    connect st net "put" path pd =
      (let req : HttpRequest :=
        { method := "put", url := "https://" ++ st.url ++ ":8006/api2/json/" ++ path,
          data := pd, cookies := st.ticket,
          headers := [("Accept", "application/json"),
                      ("Content-Type", "application/x-www-form-urlencoded"),
                      ("CSRFPreventionToken", pyStr st.CSRF)] };
       ([req], .ok (net req).json,
        { st with full_url := some ("https://" ++ st.url ++ ":8006/api2/json/" ++ path),
                  response := some (net req),
                  returned_data :=
                    match (net req).json with
                    | some j => some j
                    | none => st.returned_data })) := by
  cases hj : (net { method := "put",
                    url := "https://" ++ st.url ++ ":8006/api2/json/" ++ path,
                    data := pd, cookies := st.ticket,
                    headers := [("Accept", "application/json"),
                                ("Content-Type", "application/x-www-form-urlencoded"),
                                ("CSRFPreventionToken", pyStr st.CSRF)] }).json <;>
    simp [connect, hj]

/-- Unfolding lemma for `connect` with verb `"delete"`: same request shape
as POST, with method `"delete"`. -/
theorem connect_delete_eq (st : Pyproxmox) (net : HttpRequest → HttpResponse)
    (path : String) (pd : Option (List (String × String))) :
    connect st net "delete" path pd =
      (let req : HttpRequest :=
        { method := "delete", url := "https://" ++ st.url ++ ":8006/api2/json/" ++ path,
          data := pd, cookies := st.ticket,
          headers := [("Accept", "application/json"),
                      ("Content-Type", "application/x-www-form-urlencoded"),
                      ("CSRFPreventionToken", pyStr st.CSRF)] };
       ([req], .ok (net req).json,
        { st with full_url := some ("https://" ++ st.url ++ ":8006/api2/json/" ++ path),
                  response := some (net req),
                  returned_data :=
                    match (net req).json with
                    | some j => some j
                    | none => st.returned_data })) := by
  cases hj : (net { method := "delete",
                    url := "https://" ++ st.url ++ ":8006/api2/json/" ++ path,
                    data := pd, cookies := st.ticket,
                    headers := [("Accept", "application/json"),
                                ("Content-Type", "application/x-www-form-urlencoded"),
                                ("CSRFPreventionToken", pyStr st.CSRF)] }).json <;>
    simp [connect, hj]

/-- Unfolding lemma for `connect` with verb `"get"`: one GET request with
no form body, no headers, just the cookie dict. -/
theorem connect_get_eq (st : Pyproxmox) (net : HttpRequest → HttpResponse)
    (path : String) (pd : Option (List (String × String))) :
    connect st net "get" path pd =
      (let req : HttpRequest :=
        { method := "get", url := "https://" ++ st.url ++ ":8006/api2/json/" ++ path,
          data := none, cookies := st.ticket, headers := [] };
       ([req], .ok (net req).json,
        { st with full_url := some ("https://" ++ st.url ++ ":8006/api2/json/" ++ path),
                  response := some (net req),
                  returned_data :=
                    match (net req).json with
                    | some j => some j
                    | none => st.returned_data })) := by
  cases hj : (net { method := "get",
                    url := "https://" ++ st.url ++ ":8006/api2/json/" ++ path,
                    data := none, cookies := st.ticket, headers := [] }).json <;>
    simp [connect, hj]

/-- Unfolding lemma for `connect` with an unrecognised verb: no request is
issued, `full_url` is still assigned, and the `try:` block re-reads the
previous `self.response`: absent, the `AttributeError` re-raised by
`print(self.response)` inside the `except:` handler propagates; present,
its body is re-parsed, with a decode failure turned into a `None`
return. -/
theorem connect_other_eq (st : Pyproxmox) (net : HttpRequest → HttpResponse)
    (v path : String) (pd : Option (List (String × String)))
    (h1 : (v == "post") = false) (h2 : (v == "put") = false)
    (h3 : (v == "delete") = false) (h4 : (v == "get") = false) :
    (connect st net v path pd).1 = [] ∧
    (connect st net v path pd).2.1 =
      (match st.response with
       | none => .error .attributeError
       | some r => .ok r.json) ∧
    (connect st net v path pd).2.2.url = st.url ∧
    (connect st net v path pd).2.2.ticket = st.ticket ∧
    (connect st net v path pd).2.2.CSRF = st.CSRF := by
  rcases hr : st.response with _ | r
  · simp [connect, h1, h2, h3, h4, hr]
  · rcases hj : r.json with _ | j <;> simp [connect, h1, h2, h3, h4, hr, hj]

/-- Frame property of a single `connect` call with an arbitrary verb
string: the credential fields are untouched, at most one request goes out,
and any request that does go out carries the cookie dict and either no
CSRF header or the stored token. -/
theorem connect_frame (st : Pyproxmox) (net : HttpRequest → HttpResponse)
    (v path : String) (pd : Option (List (String × String))) :
    (connect st net v path pd).2.2.url = st.url ∧
    (connect st net v path pd).2.2.ticket = st.ticket ∧
    (connect st net v path pd).2.2.CSRF = st.CSRF ∧
    (connect st net v path pd).1.length ≤ 1 ∧
    (∀ r ∈ (connect st net v path pd).1, r.cookies = st.ticket ∧
       (r.headers.lookup "CSRFPreventionToken" = none ∨
        r.headers.lookup "CSRFPreventionToken" = some (pyStr st.CSRF))) := by
  by_cases h1 : v = "post"
  · subst h1
    rw [connect_post_eq]
    refine ⟨rfl, rfl, rfl, by simp, ?_⟩
    intro r hr
    simp only [List.mem_singleton] at hr
    subst hr
    exact ⟨rfl, Or.inr rfl⟩
  by_cases h2 : v = "put"
  · subst h2
    rw [connect_put_eq]
    refine ⟨rfl, rfl, rfl, by simp, ?_⟩
    intro r hr
    simp only [List.mem_singleton] at hr
    subst hr
    exact ⟨rfl, Or.inr rfl⟩
  by_cases h3 : v = "delete"
  · subst h3
    rw [connect_delete_eq]
    refine ⟨rfl, rfl, rfl, by simp, ?_⟩
    intro r hr
    simp only [List.mem_singleton] at hr
    subst hr
    exact ⟨rfl, Or.inr rfl⟩
  by_cases h4 : v = "get"
  · subst h4
    rw [connect_get_eq]
    refine ⟨rfl, rfl, rfl, by simp, ?_⟩
    intro r hr
    simp only [List.mem_singleton] at hr
    subst hr
    exact ⟨rfl, Or.inl rfl⟩
  obtain ⟨hreqs, _, hu, ht, hc⟩ :=
    connect_other_eq st net v path pd (beq_eq_false_iff_ne.mpr h1)
      (beq_eq_false_iff_ne.mpr h2) (beq_eq_false_iff_ne.mpr h3)
      (beq_eq_false_iff_ne.mpr h4)
  refine ⟨hu, ht, hc, by simp [hreqs], ?_⟩
  intro r hr
  rw [hreqs] at hr
  simp at hr

/-! ### Claim theorems -/

/-- C1: for a dispatcher built from session credentials whose CSRF token is
the string `c` and whose cookie dict (the ticket) is `tk`, each mutating
dispatch (post/put/delete) issues exactly one request whose
`CSRFPreventionToken` header equals `c` verbatim and whose cookie dict is
`tk`, while a GET dispatch issues exactly one request with no
`CSRFPreventionToken` header and the same cookie dict. -/
theorem claim1_csrf_and_cookie_attachment
    (host : String) (cd : List (String × String)) (fu : String)
    (resp0 : HttpResponse) (rd0 : JVal) (tk : List (String × JVal)) (c : String)
    (net : HttpRequest → HttpResponse) (path : String)
    (pd : Option (List (String × String))) :
    let st := pyproxmox_init
      { url := host, connect_data := cd, full_url := fu, response := resp0,
        returned_data := rd0, ticket := tk, CSRF := .str c };
    ((connect st net "post" path pd).1.map
        (fun r => (r.headers.lookup "CSRFPreventionToken", r.cookies)) = [(some c, tk)]) ∧
    ((connect st net "put" path pd).1.map
        (fun r => (r.headers.lookup "CSRFPreventionToken", r.cookies)) = [(some c, tk)]) ∧
    ((connect st net "delete" path pd).1.map
        (fun r => (r.headers.lookup "CSRFPreventionToken", r.cookies)) = [(some c, tk)]) ∧
    ((connect st net "get" path pd).1.map
        (fun r => (r.headers.lookup "CSRFPreventionToken", r.cookies)) = [(none, tk)]) := by
  intro st
  rw [connect_post_eq, connect_put_eq, connect_delete_eq, connect_get_eq]
  exact ⟨rfl, rfl, rfl, rfl⟩

/-- C2: for every host, relative path and body, and each of the four
recognised verbs, the dispatcher issues exactly one request whose URL is
the string `https://` ++ host ++ `:8006/api2/json/` ++ path. -/
theorem claim2_url_construction (st : Pyproxmox) (net : HttpRequest → HttpResponse)
    (path : String) (pd : Option (List (String × String))) :
    ((connect st net "get" path pd).1.map (fun r => r.url) =
        ["https://" ++ st.url ++ ":8006/api2/json/" ++ path]) ∧
    ((connect st net "post" path pd).1.map (fun r => r.url) =
        ["https://" ++ st.url ++ ":8006/api2/json/" ++ path]) ∧
    ((connect st net "put" path pd).1.map (fun r => r.url) =
        ["https://" ++ st.url ++ ":8006/api2/json/" ++ path]) ∧
    ((connect st net "delete" path pd).1.map (fun r => r.url) =
        ["https://" ++ st.url ++ ":8006/api2/json/" ++ path]) := by
  rw [connect_get_eq, connect_post_eq, connect_put_eq, connect_delete_eq]
  exact ⟨rfl, rfl, rfl, rfl⟩

/-- C3: session establishment issues exactly one POST, to
`https://host:8006/api2/json/access/ticket` with the username and password
form-encoded, and for every authentication response whose JSON body has
the shape `{ data: { ticket: T, CSRFPreventionToken: C } }` the resulting
record has cookie dict `[("PVEAuthCookie", T)]` and CSRF token `C`. -/
theorem claim3_session_establishment
    (host username password : String) (T C : JVal) (status : Nat) (body : String) :
    prox_auth_init host username password
        (fun _ => .ok { status := status, body := body,
                        json := some (.obj [("data",
                          .obj [("ticket", T), ("CSRFPreventionToken", C)])]) }) =
      ([{ method := "post",
          url := "https://" ++ host ++ ":8006/api2/json/access/ticket",
          data := some [("username", username), ("password", password)],
          cookies := [], headers := [] }],
       .ok { url := host,
             connect_data := [("username", username), ("password", password)],
             full_url := "https://" ++ host ++ ":8006/api2/json/access/ticket",
             response := { status := status, body := body,
                           json := some (.obj [("data",
                             .obj [("ticket", T), ("CSRFPreventionToken", C)])]) },
             returned_data := .obj [("data",
               .obj [("ticket", T), ("CSRFPreventionToken", C)])],
             ticket := [("PVEAuthCookie", T)],
             CSRF := C }) := rfl

/-! ### Concrete sample objects for counterexamples and witnesses -/

/-- The parsed body of a successful authentication exchange with ticket
`T1` and CSRF token `C1`. -/
def sampleAuthJson : JVal :=
  .obj [("data", .obj [("ticket", .str "T1"), ("CSRFPreventionToken", .str "C1")])]

/-- Concrete session credentials: ticket `T1`, CSRF token `C1`. -/
def sampleAuth : ProxAuth :=
  { url := "pve.example.org",
    connect_data := [("username", "api@pam"), ("password", "secret")],
    full_url := "https://pve.example.org:8006/api2/json/access/ticket",
    response := { status := 200,
                  body := "\x7b\"data\":\x7b\"ticket\":\"T1\",\"CSRFPreventionToken\":\"C1\"\x7d\x7d",
                  json := some sampleAuthJson },
    returned_data := sampleAuthJson,
    ticket := [("PVEAuthCookie", JVal.str "T1")],
    CSRF := JVal.str "C1" }

/-- A freshly initialised dispatcher over `sampleAuth`. -/
def sampleState : Pyproxmox := pyproxmox_init sampleAuth

/-- A transport whose response body is not valid JSON. -/
def malformedNet : HttpRequest → HttpResponse :=
  fun _ => { status := 500, body := "<html>Internal Server Error</html>", json := none }

/-- A transport returning a well-formed JSON envelope. -/
def okNet : HttpRequest → HttpResponse :=
  fun _ => { status := 200, body := "\x7b\"data\":[]\x7d",
             json := some (.obj [("data", .arr [])]) }

/-- C4 counterexample: with a transport returning status 500 and a
non-JSON body, a GET dispatch issues one request, and `connect` hands its
caller `.ok none` — Python `None` returned normally after both prints
succeed (`self.response` exists on this path), a silently returned empty
default.  No `MalformedResponse` error carrying the status and body is
signalled, contradicting the claim. -/
theorem claim4_counterexample :
    (connect sampleState malformedNet "get" "cluster/status" none).1.length = 1 ∧
    (connect sampleState malformedNet "get" "cluster/status" none).2.1 = .ok none :=
  ⟨rfl, rfl⟩

/-- C4 (amended): for every dispatched request, the dispatcher returns to
its caller, as a normal return (no exception), exactly the JSON-parse
outcome of the transport response — the parsed value when the body parses,
and Python `None` (after printing a diagnostic) when the body is not valid
JSON.  No distinct `MalformedResponse` error carrying the raw status and
body is raised. -/
theorem claim4_malformed_response_amended (st : Pyproxmox)
    (net : HttpRequest → HttpResponse) (path : String)
    (pd : Option (List (String × String))) :
    let mutHeaders : List (String × String) :=
      [("Accept", "application/json"),
       ("Content-Type", "application/x-www-form-urlencoded"),
       ("CSRFPreventionToken", pyStr st.CSRF)];
    let u := "https://" ++ st.url ++ ":8006/api2/json/" ++ path;
    ((connect st net "get" path pd).2.1 =
      .ok (net { method := "get", url := u, data := none,
                 cookies := st.ticket, headers := [] }).json) ∧
    ((connect st net "post" path pd).2.1 =
      .ok (net { method := "post", url := u, data := pd,
                 cookies := st.ticket, headers := mutHeaders }).json) ∧
    ((connect st net "put" path pd).2.1 =
      .ok (net { method := "put", url := u, data := pd,
                 cookies := st.ticket, headers := mutHeaders }).json) ∧
    ((connect st net "delete" path pd).2.1 =
      .ok (net { method := "delete", url := u, data := pd,
                 cookies := st.ticket, headers := mutHeaders }).json) := by
  intro mutHeaders u
  rw [connect_get_eq, connect_post_eq, connect_put_eq, connect_delete_eq]
  exact ⟨rfl, rfl, rfl, rfl⟩

/-- C7: on a dispatcher whose credentials carry ticket `T` and token `C`,
the cluster-status wrapper issues exactly one GET to
`https://host:8006/api2/json/cluster/status` with the `PVEAuthCookie`
cookie `T`, no headers (in particular no CSRF header), and returns the
decoded JSON body of the transport response unchanged. -/
theorem claim7_cluster_status (host : String) (cd : List (String × String))
    (fu : String) (resp0 : HttpResponse) (rd0 : JVal) (T C : String)
    (net : HttpRequest → HttpResponse) :
    let st := pyproxmox_init
      { url := host, connect_data := cd, full_url := fu, response := resp0,
        returned_data := rd0, ticket := [("PVEAuthCookie", .str T)],
        CSRF := .str C };
    ((getClusterStatus st net).1.map (fun r => r.url) =
        ["https://" ++ host ++ ":8006/api2/json/cluster/status"]) ∧
    ((getClusterStatus st net).1.map
        (fun r => (r.method, r.data, r.cookies, r.headers)) =
        [("get", none, [("PVEAuthCookie", JVal.str T)], [])]) ∧
    ((getClusterStatus st net).2.1 =
      .ok (net { method := "get",
                 url := "https://" ++ host ++ ":8006/api2/json/" ++ "cluster/status",
                 data := none, cookies := [("PVEAuthCookie", JVal.str T)],
                 headers := [] }).json) := by
  intro st
  simp only [getClusterStatus]
  rw [connect_get_eq]
  refine ⟨?_, rfl, rfl⟩
  show [("https://" ++ host ++ ":8006/api2/json/") ++ "cluster/status"] =
    ["https://" ++ host ++ ":8006/api2/json/cluster/status"]
  rw [String.append_assoc]
  rfl

/-- C8 counterexample: a concrete GET dispatch issues exactly one request,
and that request carries neither an `Accept` nor a `Content-Type` header
(its header dict is empty): the GET branch of the source passes no `headers=`
argument at all, contradicting the claim that every dispatched request,
GET included, carries those two headers. -/
theorem claim8_counterexample :
    (connect sampleState okNet "get" "cluster/status" none).1.map
      (fun r => (r.headers.lookup "Accept", r.headers.lookup "Content-Type",
                 r.headers)) = [(none, none, [])] := rfl

/-- C8 (amended): every dispatched POST/PUT/DELETE request carries the
headers `Accept: application/json` and
`Content-Type: application/x-www-form-urlencoded` with the
`CSRFPreventionToken` header added on top; a dispatched GET request
carries no client-set headers at all (only the session cookie). -/
theorem claim8_headers_amended (st : Pyproxmox) (net : HttpRequest → HttpResponse)
    (path : String) (pd : Option (List (String × String))) :
    ((connect st net "post" path pd).1.map (fun r => r.headers) =
        [[("Accept", "application/json"),
          ("Content-Type", "application/x-www-form-urlencoded"),
          ("CSRFPreventionToken", pyStr st.CSRF)]]) ∧
    ((connect st net "put" path pd).1.map (fun r => r.headers) =
        [[("Accept", "application/json"),
          ("Content-Type", "application/x-www-form-urlencoded"),
          ("CSRFPreventionToken", pyStr st.CSRF)]]) ∧
    ((connect st net "delete" path pd).1.map (fun r => r.headers) =
        [[("Accept", "application/json"),
          ("Content-Type", "application/x-www-form-urlencoded"),
          ("CSRFPreventionToken", pyStr st.CSRF)]]) ∧
    ((connect st net "get" path pd).1.map (fun r => r.headers) = [[]]) := by
  rw [connect_post_eq, connect_put_eq, connect_delete_eq, connect_get_eq]
  exact ⟨rfl, rfl, rfl, rfl⟩

/-- C9: for every node, vmid and target, `migrateVirtualMachine` performs
exactly one POST dispatch with form body `[("target", target)]` to the
path `nodes/{node}/qemu/{vmid}/status/start` — the VM start-status path,
not a migrate path — while `migrateOpenvzContainer` with the same
arguments performs one POST with the same body to
`nodes/{node}/openvz/{vmid}/migrate`. -/
theorem claim9_migrate_paths (st : Pyproxmox) (net : HttpRequest → HttpResponse)
    (node vmid target : String) :
    ((migrateVirtualMachine st net node vmid target).1.map
        (fun r => (r.method, r.url, r.data)) =
      [("post",
        "https://" ++ st.url ++ ":8006/api2/json/" ++
          ("nodes/" ++ node ++ "/qemu/" ++ vmid ++ "/status/start"),
        some [("target", target)])]) ∧
    ((migrateOpenvzContainer st net node vmid target).1.map
        (fun r => (r.method, r.url, r.data)) =
      [("post",
        "https://" ++ st.url ++ ":8006/api2/json/" ++
          ("nodes/" ++ node ++ "/openvz/" ++ vmid ++ "/migrate"),
        some [("target", target)])]) := by
  simp only [migrateVirtualMachine, migrateOpenvzContainer]
  rw [connect_post_eq, connect_post_eq]
  exact ⟨rfl, rfl⟩

/-! ### Authentication failure scenarios (C5) -/

/-- A transport for the authentication POST that fails at the network
level. -/
def transportFailPost : HttpRequest → Except PyError HttpResponse :=
  fun _ => .error .transportError

/-- An authentication response body that is an HTML page, not JSON. -/
def htmlResp : HttpResponse :=
  { status := 200, body := "<html>login</html>", json := none }

/-- A transport delivering `htmlResp`. -/
def htmlPost : HttpRequest → Except PyError HttpResponse :=
  fun _ => .ok htmlResp

/-- An authentication response whose JSON lacks the `ticket` field. -/
def noTicketResp : HttpResponse :=
  { status := 200,
    body := "\x7b\"data\":\x7b\"CSRFPreventionToken\":\"C1\"\x7d\x7d",
    json := some (.obj [("data", .obj [("CSRFPreventionToken", .str "C1")])]) }

/-- A transport delivering `noTicketResp`. -/
def noTicketPost : HttpRequest → Except PyError HttpResponse :=
  fun _ => .ok noTicketResp

/-- An authentication response whose JSON lacks the
`CSRFPreventionToken` field. -/
def noCsrfPost : HttpRequest → Except PyError HttpResponse :=
  fun _ => .ok { status := 200,
                 body := "\x7b\"data\":\x7b\"ticket\":\"T1\"\x7d\x7d",
                 json := some (.obj [("data", .obj [("ticket", .str "T1")])]) }

/-- C5 counterexample: for an authentication response lacking the
`CSRFPreventionToken` field, session establishment surfaces the raw
Python `KeyError` for that key.  The embedded error type mirrors exactly
the exceptions the source can raise and has no authentication-specific
alternative, so no distinct `AuthenticationFailure` error kind is
produced, contradicting the claim. -/
theorem claim5_counterexample :
    (prox_auth_init "pve.example.org" "api@pam" "secret" noCsrfPost).2 =
      .error (.keyError "CSRFPreventionToken") := rfl

/-- C5 (amended): during session establishment a transport error, a
non-JSON body, or a response missing an expected field is surfaced to the
caller by propagating the underlying Python exception (transport error,
JSON decode error, or `KeyError` for the absent field) — never swallowed,
and with no print-and-exit inside `prox_auth` itself (the print-and-exit
lives in the CLI helpers `clusters_lib.get_auth`/`network_lib.get_auth`).
The surfaced error is the raw exception, not a distinct
`AuthenticationFailure` kind. -/
theorem claim5_auth_failure_amended (url username password : String)
    (post : HttpRequest → Except PyError HttpResponse) :
    (∀ e, (∀ r, post r = .error e) →
       (prox_auth_init url username password post).2 = .error e) ∧
    (∀ resp, (∀ r, post r = .ok resp) → resp.json = none →
       (prox_auth_init url username password post).2 = .error .jsonDecodeError) ∧
    (∀ resp fields, (∀ r, post r = .ok resp) →
       resp.json = some (.obj [("data", .obj fields)]) →
       fields.lookup "ticket" = none →
       (prox_auth_init url username password post).2 =
         .error (.keyError "ticket")) ∧
    (∀ resp fields t, (∀ r, post r = .ok resp) →
       resp.json = some (.obj [("data", .obj fields)]) →
       fields.lookup "ticket" = some t →
       fields.lookup "CSRFPreventionToken" = none →
       (prox_auth_init url username password post).2 =
         .error (.keyError "CSRFPreventionToken")) := by
  refine ⟨?_, ?_, ?_, ?_⟩
  · intro e h
    simp [prox_auth_init, h]
  · intro resp h hj
    simp [prox_auth_init, h, hj]
  · intro resp fields h hj hl
    simp [prox_auth_init, h, hj, dictGet, hl]
  · intro resp fields t h hj hl hc
    simp [prox_auth_init, h, hj, dictGet, hl, hc]

/-- Closed witness for the amended C5 theorem: the three failure scenarios
(transport failure, HTML body, missing `ticket` field) each surface the
corresponding raw exception. -/
theorem claim5_auth_failure_amended_witness :
    (prox_auth_init "pve.example.org" "api@pam" "secret" transportFailPost).2 =
      .error .transportError ∧
    (prox_auth_init "pve.example.org" "api@pam" "secret" htmlPost).2 =
      .error .jsonDecodeError ∧
    (prox_auth_init "pve.example.org" "api@pam" "secret" noTicketPost).2 =
      .error (.keyError "ticket") := by
  refine ⟨?_, ?_, ?_⟩
  · exact (claim5_auth_failure_amended "pve.example.org" "api@pam" "secret"
      transportFailPost).1 .transportError (fun r => rfl)
  · exact (claim5_auth_failure_amended "pve.example.org" "api@pam" "secret"
      htmlPost).2.1 htmlResp (fun r => rfl) rfl
  · exact (claim5_auth_failure_amended "pve.example.org" "api@pam" "secret"
      noTicketPost).2.2.1 noTicketResp
      [("CSRFPreventionToken", .str "C1")] (fun r => rfl) rfl rfl

/-- C6: across every sequence of dispatcher calls through one instance,
the session-credential fields (host url, ticket cookie dict, CSRF token)
are never mutated: the final state carries exactly the initial values; at
most one HTTP request goes out per call, so the dispatcher never issues a
re-authentication request on top; and every request of the whole run
carries the initial cookie dict and either no CSRF header or exactly the
initial token. -/
theorem claim6_credentials_immutable (st : Pyproxmox)
    (calls : List ((HttpRequest → HttpResponse) × String × String ×
                   Option (List (String × String)))) :
    (runCalls st calls).2.url = st.url ∧
    (runCalls st calls).2.ticket = st.ticket ∧
    (runCalls st calls).2.CSRF = st.CSRF ∧
    (runCalls st calls).1.length ≤ calls.length ∧
    (∀ r ∈ (runCalls st calls).1, r.cookies = st.ticket ∧
       (r.headers.lookup "CSRFPreventionToken" = none ∨
        r.headers.lookup "CSRFPreventionToken" = some (pyStr st.CSRF))) := by
  induction calls generalizing st with
  | nil => simp [runCalls]
  | cons c rest ih =>
    obtain ⟨hu, ht, hc, hlen, hreq⟩ := connect_frame st c.1 c.2.1 c.2.2.1 c.2.2.2
    obtain ⟨ihu, iht, ihc, ihlen, ihreq⟩ :=
      ih (connect st c.1 c.2.1 c.2.2.1 c.2.2.2).2.2
    refine ⟨ihu.trans hu, iht.trans ht, ihc.trans hc, ?_, ?_⟩
    · show ((connect st c.1 c.2.1 c.2.2.1 c.2.2.2).1 ++
          (runCalls (connect st c.1 c.2.1 c.2.2.1 c.2.2.2).2.2 rest).1).length ≤
        rest.length + 1
      rw [List.length_append]
      omega
    · intro r hr
      have hr2 : r ∈ (connect st c.1 c.2.1 c.2.2.1 c.2.2.2).1 ++
          (runCalls (connect st c.1 c.2.1 c.2.2.1 c.2.2.2).2.2 rest).1 := hr
      rcases List.mem_append.mp hr2 with hmem | hmem
      · exact hreq r hmem
      · obtain ⟨hcook, hhd⟩ := ihreq r hmem
        rw [ht] at hcook
        rw [hc] at hhd
        exact ⟨hcook, hhd⟩

/-- A concrete two-call sequence for the C6 witness. -/
def sampleCalls : List ((HttpRequest → HttpResponse) × String × String ×
    Option (List (String × String))) :=
  [(okNet, "get", "cluster/status", none),
   (okNet, "post", "nodes/pve/qemu", some [("vmid", "101")])]

/-- The first request issued by `runCalls sampleState sampleCalls`. -/
def sampleReq1 : HttpRequest :=
  { method := "get", url := "https://pve.example.org:8006/api2/json/cluster/status",
    data := none, cookies := [("PVEAuthCookie", JVal.str "T1")], headers := [] }

/-- Closed witness for C6 at a concrete two-call sequence. -/
theorem claim6_credentials_immutable_witness :
    (runCalls sampleState sampleCalls).2.url = sampleState.url ∧
    (runCalls sampleState sampleCalls).2.ticket = sampleState.ticket ∧
    (runCalls sampleState sampleCalls).2.CSRF = sampleState.CSRF ∧
    (runCalls sampleState sampleCalls).1.length ≤ sampleCalls.length ∧
    (sampleReq1.cookies = sampleState.ticket ∧
      (sampleReq1.headers.lookup "CSRFPreventionToken" = none ∨
       sampleReq1.headers.lookup "CSRFPreventionToken" =
         some (pyStr sampleState.CSRF))) := by
  obtain ⟨h1, h2, h3, h4, h5⟩ := claim6_credentials_immutable sampleState sampleCalls
  refine ⟨h1, h2, h3, h4, h5 sampleReq1 ?_⟩
  show sampleReq1 ∈ sampleReq1 :: _
  exact List.mem_cons_self _ _

/-- C10: invoked with a verb outside get/post/put/delete, the dispatcher
issues no HTTP request at all; on an instance with no prior completed call
the attempt to read the absent `self.response` fails — the `AttributeError`
re-raised by `print(self.response)` inside the `except:` handler
propagates uncaught — so no JSON value is returned; and on an instance
whose previous call completed with a parsable body it returns the parsed
body of that previous response. -/
theorem claim10_unrecognized_verb (st : Pyproxmox)
    (net : HttpRequest → HttpResponse) (v path : String)
    (pd : Option (List (String × String)))
    (h1 : v ≠ "post") (h2 : v ≠ "put") (h3 : v ≠ "delete") (h4 : v ≠ "get") :
    (connect st net v path pd).1 = [] ∧
    (st.response = none →
       (connect st net v path pd).2.1 = .error .attributeError) ∧
    (∀ r j, st.response = some r → r.json = some j →
       (connect st net v path pd).2.1 = .ok (some j)) := by
  obtain ⟨ha, hb, _⟩ := connect_other_eq st net v path pd
    (beq_eq_false_iff_ne.mpr h1) (beq_eq_false_iff_ne.mpr h2)
    (beq_eq_false_iff_ne.mpr h3) (beq_eq_false_iff_ne.mpr h4)
  refine ⟨ha, ?_, ?_⟩
  · intro hn
    rw [hb, hn]
  · intro r j hr hj
    rw [hb, hr]
    exact congrArg Except.ok hj

/-- The response left behind by a completed prior call, for the C10
witness. -/
def priorResponse : HttpResponse :=
  { status := 200, body := "\x7b\"data\":[]\x7d",
    json := some (.obj [("data", .arr [])]) }

/-- A dispatcher state whose previous call completed with a parsable
body. -/
def sampleStateWithPrior : Pyproxmox :=
  { sampleState with response := some priorResponse,
                     returned_data := some (.obj [("data", .arr [])]) }

/-- Closed witness for C10 at the concrete verb `"frobnicate"`: no request
is issued; a fresh instance propagates the `AttributeError`; an instance
with a completed prior call returns that previous parsed body. -/
theorem claim10_unrecognized_verb_witness :
    (connect sampleState okNet "frobnicate" "cluster/status" none).1 = [] ∧
    (connect sampleState okNet "frobnicate" "cluster/status" none).2.1 =
      .error .attributeError ∧
    (connect sampleStateWithPrior okNet "frobnicate" "cluster/status" none).1 = [] ∧
    (connect sampleStateWithPrior okNet "frobnicate" "cluster/status" none).2.1 =
      .ok (some (.obj [("data", .arr [])])) := by
  obtain ⟨a1, a2, _⟩ := claim10_unrecognized_verb sampleState okNet
    "frobnicate" "cluster/status" none
    (by decide) (by decide) (by decide) (by decide)
  obtain ⟨b1, _, b3⟩ := claim10_unrecognized_verb sampleStateWithPrior okNet
    "frobnicate" "cluster/status" none
    (by decide) (by decide) (by decide) (by decide)
  exact ⟨a1, a2 rfl, b1, b3 priorResponse (.obj [("data", .arr [])]) rfl rfl⟩

end ProxCli
